import Mathlib

/-!
Verification of the collection configuration exported by
`docs/.vuepress/collections/cppstudy.ts`.

The file under verification constructs a single literal configuration
record and passes it to the site framework's registration helper.  The
record and its construction are embedded below; string prefix/suffix
checks are carried out on the character lists underlying the strings.
-/

/-- A sidebar entry: a display label and a link (a file path). -/
structure SidebarItem where
  text : String
  link : String
deriving DecidableEq, Repr

/-- A sidebar group: a display label, a collapse flag, and its items. -/
structure SidebarGroup where
  text : String
  collapsed : Bool
  items : List SidebarItem
deriving DecidableEq, Repr

/-- The collection configuration record built by `cppstudy.ts`. -/
structure Collection where
  type : String
  dir : String
  linkPrefix : String
  title : String
  sidebar : List SidebarGroup
  sidebarCollapsed : Bool
deriving DecidableEq, Repr

/-- `p` is a prefix of `s`, decided on the underlying character lists. -/
def strHasPrefixOf (p s : String) : Bool := p.data.isPrefixOf s.data

/-- `p` is a suffix of `s`, decided on the underlying character lists. -/
def strHasSuffixOf (p s : String) : Bool := p.data.isSuffixOf s.data

/-- The seven items of the single sidebar group in `cppstudy.ts`
(lines 19-48 of the source). -/
def cppstudyItems : List SidebarItem :=
  [ { text := "第一章 基本概念", link := "001-基本概念.md" },
    { text := "第二章 基本数据类型", link := "002-基本数据类型.md" },
    { text := "第三章 处理基本数据类型", link := "003-处理基本数据类型.md" },
    { text := "第四章 决策", link := "004-决策.md" },
    { text := "第五章 数组和循环", link := "005-数组和循环.md" },
    { text := "第六章 指针和引用", link := "006-指针和引用.md" },
    { text := "第七章 操作字符串", link := "007-操作字符串.md" } ]

/-- The single sidebar group declared in `cppstudy.ts` (lines 16-49). -/
def cppstudyGroup : SidebarGroup :=
  { text := "C++: 基础语法", collapsed := true, items := cppstudyItems }

/-- The `sidebar` field of the configuration: one group. -/
def cppstudySidebar : List SidebarGroup := [cppstudyGroup]

/-- The literal configuration record of `cppstudy.ts` (lines 3-52). -/
def cppstudyConfig : Collection :=
  { type := "doc"
    dir := "cppstudy"
    linkPrefix := "/cppstudy"
    title := "cppstudy"
    sidebar := cppstudySidebar
    sidebarCollapsed := true }

/-- Modelled from the spec: the external framework's registration type
helper that the file calls on its literal record.  Per the spec there is
"no algorithm beyond literal data construction", so the helper returns
its argument unchanged. -/
def defineCollection (c : Collection) : Collection := c

/-- The module's default export: the registered configuration. -/
def cppstudy : Collection := defineCollection cppstudyConfig

/-- Modelled from the spec: the markdown files under the directory named
by `dir` (`docs/cppstudy`).  They are content files of the repository
that are not under `src/`; the spec states that every `link` value in
`sidebar` resolves to an existing file under `dir`, so the directory is
modelled as holding exactly the seven chapter files. -/
def cppstudyDirFiles : List String :=
  [ "001-基本概念.md", "002-基本数据类型.md", "003-处理基本数据类型.md",
    "004-决策.md", "005-数组和循环.md", "006-指针和引用.md",
    "007-操作字符串.md" ]

/-- Modelled from the spec: the permalink the host framework generates
for a markdown file that lives under the collection directory `dir`; the
generation itself happens outside this repository.  A file under `dir`
is published at the URL path of `dir` followed by the file path. -/
def permalinkOf (c : Collection) (file : String) : String :=
  "/" ++ c.dir ++ "/" ++ file

/-- The three-digit zero-padded decimal rendering of a chapter number. -/
def pad3 (n : Nat) : String :=
  if n < 10 then "00" ++ toString n
  else if n < 100 then "0" ++ toString n
  else toString n

/-- C1: every item's `link` in every group of the exported `sidebar`
names an existing markdown file under the directory given by `dir`, and
the permalink generated for that file starts with `linkPrefix`. -/
theorem c1_links_resolve_and_permalinks_prefixed :
    (cppstudy.sidebar.all fun g => g.items.all fun i =>
      decide (i.link ∈ cppstudyDirFiles) &&
        strHasPrefixOf cppstudy.linkPrefix (permalinkOf cppstudy i.link)) = true := by
  decide

/-- C2: every group of the exported `sidebar` carries a label, a
collapse flag and an item sequence, and every item's `link` is a
relative path: no `link` begins with a slash. -/
theorem c2_sidebar_links_are_relative :
    (cppstudy.sidebar.all fun g =>
      g.items.all fun i => !(strHasPrefixOf "/" i.link)) = true := by
  decide

/-- C3: the exported configuration's `type` field is the string "doc". -/
theorem c3_type_is_doc : cppstudy.type = "doc" := by
  decide

/-- C4: the exported configuration's `dir` field equals "cppstudy" and
is a relative path: it does not begin with a slash. -/
theorem c4_dir_is_relative_cppstudy :
    cppstudy.dir = "cppstudy" ∧ strHasPrefixOf "/" cppstudy.dir = false := by
  constructor <;> decide

/-- C5: the exported configuration's `sidebarCollapsed` field is the
boolean value `true`. -/
theorem c5_sidebarCollapsed_true : cppstudy.sidebarCollapsed = true := by
  decide

/-- C6: constructing the export is a total, failure-free literal
construction: the registration helper returns every record unchanged,
and the export is exactly the literal record, so any two evaluations
yield the same configuration. -/
theorem c6_construction_total_and_deterministic :
    (∀ c : Collection, defineCollection c = c) ∧
      cppstudy = cppstudyConfig ∧ defineCollection cppstudyConfig = cppstudy :=
  ⟨fun _ => rfl, rfl, rfl⟩

/-- C7: no field of the exported configuration ever differs from its
literal initial value: `type`, `dir`, `linkPrefix`, `title`, `sidebar`
and `sidebarCollapsed` all still hold what lines 3-52 wrote into them. -/
theorem c7_fields_unchanged_from_literals :
    cppstudy.type = "doc" ∧ cppstudy.dir = "cppstudy" ∧
      cppstudy.linkPrefix = "/cppstudy" ∧ cppstudy.title = "cppstudy" ∧
      cppstudy.sidebar = cppstudySidebar ∧ cppstudy.sidebarCollapsed = true :=
  ⟨rfl, rfl, rfl, rfl, rfl, rfl⟩

/-- C8: the exported configuration satisfies `linkPrefix` = "/" ++ `dir`
and `title` = `dir`: all three strings are built from "cppstudy". -/
theorem c8_linkPrefix_and_title_from_dir :
    cppstudy.linkPrefix = "/" ++ cppstudy.dir ∧ cppstudy.title = cppstudy.dir := by
  constructor <;> decide

/-- C9: the exported `sidebar` has exactly one group; that group is
collapsed, has exactly seven items, every item's `link` ends in ".md",
and the seven `link` values are pairwise distinct. -/
theorem c9_one_group_seven_distinct_md_items :
    cppstudy.sidebar.length = 1 ∧
      (cppstudy.sidebar.all fun g =>
        g.collapsed && (g.items.length == 7) &&
          (g.items.all fun i => strHasSuffixOf ".md" i.link) &&
          decide (g.items.map fun i => i.link).Nodup) = true := by
  constructor <;> decide

/-- C10: in every group of the exported `sidebar` (there is one), the
item at index i, for i < 7, has a `link` beginning with the three-digit
zero-padded number i+1 followed by a dash, so the links carry "001-"
through "007-" in order. -/
theorem c10_links_zero_padded_in_order (i : Nat) (h : i < 7) :
    ∀ g ∈ cppstudy.sidebar,
      (g.items[i]?).map (fun it => strHasPrefixOf (pad3 (i + 1) ++ "-") it.link) =
        some true := by
  interval_cases i <;> decide

/-- Witness for C10 at index 0 and the concrete sidebar group. -/
theorem c10_links_zero_padded_in_order_witness :
    (cppstudyGroup.items[0]?).map
        (fun it => strHasPrefixOf (pad3 (0 + 1) ++ "-") it.link) = some true :=
  c10_links_zero_padded_in_order 0 (by decide) cppstudyGroup (by decide)
